import Mathlib

/-!
Verification development for the picture-of-the-day client logic
(`src/extension/newtab.js` and `src/pictures/static/pictures/newtab.js`).

The JavaScript is shallowly embedded:
* `localStorage` is a `Store` record of the typed values behind the keys the
  code reads and writes (`picture_cache`, `picture_cache_date`,
  `picture_source`, `bing_picture_date`, `available_sources_cache`,
  `available_sources_cache_date`);
* network I/O is explicit: the outcome a `fetch` call would produce is an
  argument (`FetchOutcome`), and functions return their result together with
  the updated store;
* JavaScript numbers are modelled as exact rationals (`ℚ`); the decimal
  literals of the source (`0.9`, `1.1`, `1.5`, `0.67`, `0.1`) are exact in
  both worlds at every input the theorems touch, `Math.round` is
  `⌊x + 1/2⌋` and `toFixed(2)` rounds to the nearest hundredth (larger on
  ties), matching the ECMAScript definitions on the values involved;
* the browser's HTML-entity decoding used by `sanitizeHtmlEntities`
  (assignment to `textarea.innerHTML` followed by reading `.value`) is
  modelled on the named entities `&amp; &lt; &gt; &quot; &nbsp;`; it is the
  identity on any string that contains no ampersand, which is the only part
  the theorems rely on.
-/

/-- JavaScript truthiness of a possibly-absent string: `undefined`/`null`
and the empty string are falsy, every other string is truthy. -/
def truthyS : Option String → Bool
  | none => false
  | some s => s != ""

/-- JavaScript `a || b` on possibly-absent strings. -/
def jsOr (a b : Option String) : Option String :=
  if truthyS a then a else b

/-- JavaScript `a || d` where the fallback `d` is a present string. -/
def jsOrD (a : Option String) (d : String) : String :=
  match a with
  | some s => if s = "" then d else s
  | none => d

/-- JavaScript `b || false` on a possibly-absent boolean. -/
def jsOrB : Option Bool → Bool
  | none => false
  | some b => b

/-- The non-breaking space character U+00A0. -/
def nbspChar : Char := Char.ofNat 160

/-- Model of the browser's HTML-entity decoding that
`sanitizeHtmlEntities` performs through a detached `textarea` element
(`textarea.innerHTML = text; textarea.value`): the common named entities
are decoded, every other character is kept.  Identity on strings without
an ampersand. -/
def decodeHtmlEntities : List Char → List Char
  | [] => []
  | '&' :: 'a' :: 'm' :: 'p' :: ';' :: rest => '&' :: decodeHtmlEntities rest
  | '&' :: 'l' :: 't' :: ';' :: rest => '<' :: decodeHtmlEntities rest
  | '&' :: 'g' :: 't' :: ';' :: rest => '>' :: decodeHtmlEntities rest
  | '&' :: 'q' :: 'u' :: 'o' :: 't' :: ';' :: rest => '"' :: decodeHtmlEntities rest
  | '&' :: 'n' :: 'b' :: 's' :: 'p' :: ';' :: rest => nbspChar :: decodeHtmlEntities rest
  | c :: rest => c :: decodeHtmlEntities rest

/-- Embedding of `sanitizeHtmlEntities` (both variants, identical code): decode HTML
entities via a `textarea`, then replace every non-breaking space (U+00A0)
by a plain space (`sanitized.replace(/ /g, ' ')`). -/
def sanitizeHtmlEntities (text : String) : String :=
  String.mk ((decodeHtmlEntities text.data).map (fun c => if c = nbspChar then ' ' else c))

/-- Embedding of `sanitizeHtmlEntities` applied to a possibly-absent string: the JS
function returns falsy/non-string input unchanged (`if (!text || typeof
text !== 'string') return text`). -/
def sanitizeOpt : Option String → Option String
  | none => none
  | some s => if s = "" then some s else some (sanitizeHtmlEntities s)

/-- Whether `pat` is a prefix of `s` (over character lists). -/
def startsWithChars : List Char → List Char → Bool
  | [], _ => true
  | _ :: _, [] => false
  | p :: ps, c :: cs => p = c && startsWithChars ps cs

/-- Whether `pat` occurs contiguously inside `s` (over character lists). -/
def hasInfixChars : List Char → List Char → Bool
  | pat, [] => startsWithChars pat []
  | pat, c :: rest => startsWithChars pat (c :: rest) || hasInfixChars pat rest

/-- JavaScript `s.includes(pat)`. -/
def containsSub (s pat : String) : Bool :=
  hasInfixChars pat.data s.data

/-- A raw JSON object as the client reads it: every field the two
`normalizePictureData` variants, `fetchPicture` and the NASA fallback
probe, each possibly absent.  Numeric fields are rationals. -/
structure RawData where
  title : Option String := none
  date : Option String := none
  processed_explanation : Option String := none
  display_explanation : Option String := none
  original_explanation : Option String := none
  explanation : Option String := none
  simplified_explanation : Option String := none
  is_processed : Option Bool := none
  media_type : Option String := none
  image_url : Option String := none
  url : Option String := none
  hd_image_url : Option String := none
  hdurl : Option String := none
  display_image_url : Option String := none
  thumbnail_url : Option String := none
  copyright : Option String := none
  source_url : Option String := none
  nasa_url : Option String := none
  image_width : Option ℚ := none
  image_height : Option ℚ := none
  image_size_mb : Option ℚ := none
  image_resolution : Option String := none
  error : Option String := none
deriving DecidableEq, Inhabited

/-- The normalized picture record both `normalizePictureData` variants
return.  `source` is the argument the caller passed (the website variant
may pass `null`, hence `Option`). -/
structure PictureRecord where
  source : Option String
  title : Option String
  date : Option String
  processed_explanation : Option String
  display_explanation : Option String
  original_explanation : Option String
  simplified_explanation : Option String
  is_processed : Bool
  media_type : String
  image_url : Option String
  hd_image_url : Option String
  display_image_url : Option String
  thumbnail_url : Option String
  copyright : Option String
  source_url : Option String
  image_width : Option ℚ
  image_height : Option ℚ
  image_size_mb : Option ℚ
  image_resolution : Option String
deriving DecidableEq, Inhabited

/-- One entry of the `/api/pictures/sources/` catalog:
`{value, label, enabled}`, where `label` and `enabled` may be absent. -/
structure SourceEntry where
  value : String
  label : Option String := none
  enabled : Option Bool := none
deriving DecidableEq, Inhabited

/-- The typed contents of `localStorage` behind the keys the embedded code
touches.  `none` models an absent key. -/
structure Store where
  cache : Option PictureRecord
  cacheDate : Option String
  selectedSource : Option String
  bingDate : Option String
  sourcesCache : Option (List SourceEntry)
  sourcesCacheDate : Option Int
deriving DecidableEq, Inhabited

/-- A store with every key absent (fresh profile). -/
def emptyStore : Store := ⟨none, none, none, none, none, none⟩

/-- Embedding of `normalizePictureData` of the extension variant
(`src/extension/newtab.js` lines 568-591): the backend fields are trusted
and copied through, with `is_processed || false` and
`media_type || 'image'` as the only fallbacks. -/
def normalizePictureDataExt (data : RawData) (source : Option String) : PictureRecord where
  source := source
  title := data.title
  date := data.date
  processed_explanation := data.processed_explanation
  display_explanation := data.display_explanation
  original_explanation := data.original_explanation
  simplified_explanation := data.simplified_explanation
  is_processed := jsOrB data.is_processed
  media_type := jsOrD data.media_type "image"
  image_url := data.image_url
  hd_image_url := data.hd_image_url
  display_image_url := data.display_image_url
  thumbnail_url := data.thumbnail_url
  copyright := data.copyright
  source_url := data.source_url
  image_width := data.image_width
  image_height := data.image_height
  image_size_mb := data.image_size_mb
  image_resolution := data.image_resolution

/-- Embedding of `normalizePictureData` of the website variant
(`src/pictures/static/pictures/newtab.js` lines 680-704): sanitizes the
plain-text fields, keeps `processed_explanation` intact, and resolves the
`||`-chains over the heterogeneous field names of the backend and of the
direct NASA payload. -/
def normalizePictureData (data : RawData) (source : Option String) : PictureRecord where
  source := source
  title := sanitizeOpt data.title
  date := data.date
  processed_explanation := data.processed_explanation
  display_explanation :=
    jsOr data.display_explanation
      (jsOr data.processed_explanation
        (sanitizeOpt (jsOr data.original_explanation data.explanation)))
  original_explanation := sanitizeOpt (jsOr data.original_explanation data.explanation)
  simplified_explanation := sanitizeOpt data.simplified_explanation
  is_processed := jsOrB data.is_processed
  media_type := jsOrD data.media_type "image"
  image_url := jsOr data.image_url data.url
  hd_image_url := jsOr data.hd_image_url data.hdurl
  display_image_url :=
    jsOr data.display_image_url
      (jsOr data.hd_image_url (jsOr data.hdurl (jsOr data.image_url data.url)))
  thumbnail_url := data.thumbnail_url
  copyright := sanitizeOpt data.copyright
  source_url := jsOr data.source_url data.nasa_url
  image_width := data.image_width
  image_height := data.image_height
  image_size_mb := data.image_size_mb
  image_resolution := data.image_resolution

/-- Embedding of `isCacheValid(source)` (identical in both variants:
`src/extension/newtab.js` lines 593-598 and
`src/pictures/static/pictures/newtab.js` lines 706-711): reads
`picture_cache_date` and `picture_source` and compares them with today's
`Date().toDateString()` and the argument. -/
def isCacheValid (st : Store) (today source : String) : Bool :=
  decide (st.cacheDate = some today) && decide (st.selectedSource = some source)

/-- The re-sanitization `getCachedPicture` applies to a record read back
from `localStorage` (backward compatibility with entries written by older
versions): plain-text fields are sanitized, `processed_explanation` is
kept, and `display_explanation` is kept verbatim exactly when it contains
an inline `<a ` link. -/
def resanitizeCached (data : PictureRecord) : PictureRecord :=
  { data with
    title := sanitizeOpt data.title
    display_explanation :=
      match data.display_explanation with
      | some s =>
        if s = "" then none
        else if containsSub s "<a " then some s else some (sanitizeHtmlEntities s)
      | none => none
    processed_explanation := data.processed_explanation
    original_explanation := sanitizeOpt data.original_explanation
    simplified_explanation := sanitizeOpt data.simplified_explanation
    copyright := sanitizeOpt data.copyright }

/-- Embedding of `getCachedPicture(source)` (extension lines 600-621, website lines
713-735): returns the stored record, re-sanitized, only when
`isCacheValid(source)` holds and a record is stored. -/
def getCachedPicture (st : Store) (today source : String) : Option PictureRecord :=
  if isCacheValid st today source then (st.cache).map resanitizeCached else none

/-- Embedding of `setSelectedSource(source)` (extension lines 360-362): writes the
`picture_source` key. -/
def setSelectedSource (source : String) (st : Store) : Store :=
  { st with selectedSource := some source }

/-- Embedding of `clearSelectedSource()` (extension lines 364-366): removes the
`picture_source` key. -/
def clearSelectedSource (st : Store) : Store :=
  { st with selectedSource := none }

/-- Embedding of `cachePicture(data)` (extension lines 623-629, website lines 737-743):
stores the record under `picture_cache`, stamps `picture_cache_date` with
today, and, when `data.source` is truthy, writes the same
`picture_source` key that `setSelectedSource` maintains. -/
def cachePicture (data : PictureRecord) (today : String) (st : Store) : Store :=
  let st' := { st with cache := some data, cacheDate := some today }
  if truthyS data.source then setSelectedSource ((data.source).getD "") st' else st'

/-- Embedding of `getSelectedSource()` of the extension variant (lines 335-350): reads
`picture_source`; when the stored value is no longer among the available
sources (and some source is available) it removes the key (and the Bing
date when the stale value was `bing`) and returns `null`. -/
def getSelectedSourceExt (avail : List String) (st : Store) : Option String × Store :=
  match st.selectedSource with
  | none => (none, st)
  | some stored =>
    if stored = "" then (none, st)
    else if avail.length > 0 && !(avail.contains stored) then
      (none, { st with selectedSource := none,
                       bingDate := if stored = "bing" then none else st.bingDate })
    else (some stored, st)

/-- Embedding of `getRandomSource()` of the extension variant (lines 352-358): `null`
when no source is available, else a uniformly drawn element.  The random
draw `Math.floor(Math.random() * length)` is modelled by an arbitrary
natural number taken modulo the length. -/
def getRandomSourceExt (avail : List String) (k : Nat) : Option String :=
  if avail.length = 0 then none
  else some (avail.getD (k % avail.length) "")

/-- Embedding of `DEFAULT_SOURCE` of the website variant (line 20). -/
def DEFAULT_SOURCE : String := "apod"

/-- Embedding of `getRandomSource()` of the website variant (lines 368-374): falls back
to the fixed `DEFAULT_SOURCE` when no source is available, else draws
uniformly. -/
def getRandomSourceWeb (avail : List String) (k : Nat) : String :=
  if avail.length = 0 then DEFAULT_SOURCE
  else avail.getD (k % avail.length) ""

/-- The enabled-subset computation used throughout `loadAvailableSources`
(both variants): `sources.filter(s => s.enabled !== false)` — an entry is
kept exactly when its `enabled` flag is not literally `false`. -/
def enabledFilter (sources : List SourceEntry) : List SourceEntry :=
  sources.filter (fun s => s.enabled ≠ some false)

/-- Result of one `loadAvailableSources` run: the returned list, the new
value of the module-global `AVAILABLE_SOURCES` working set, and the
updated store. -/
structure SourcesResult where
  returned : List SourceEntry
  avail : List String
  st : Store
deriving DecidableEq

/-- The `forceRefresh = true` tail of `loadAvailableSources` (extension
lines 262-293, website lines 256-297): fetch the catalog; on success cache
it (disabled entries included) with the fetch timestamp and return the
enabled subset; on failure fall back to the cached catalog regardless of
its age, and to the empty list when no cache exists.  The outcome the
`fetch` would produce is the `fetchResult` argument. -/
def loadAvailableSourcesForce (st : Store) (now : Int)
    (fetchResult : Except Unit (List SourceEntry)) : SourcesResult :=
  match fetchResult with
  | Except.ok sources =>
    let enabled := enabledFilter sources
    ⟨enabled, enabled.map (fun s => s.value),
      { st with sourcesCache := some sources, sourcesCacheDate := some now }⟩
  | Except.error _ =>
    match st.sourcesCache with
    | some sources =>
      let enabled := enabledFilter sources
      ⟨enabled, enabled.map (fun s => s.value), st⟩
    | none => ⟨[], [], st⟩

/-- Embedding of `loadAvailableSources(forceRefresh)` (extension lines 235-294, website
lines 221-298): when not forcing and the cached catalog is younger than
the freshness threshold (10s on localhost, 30s otherwise), answer from the
cache — unless the stored selected source is no longer in the enabled
subset, in which case recurse with `forceRefresh = true` (unfolded here
into `loadAvailableSourcesForce`, which is exactly the body that run
executes).  The cache is typed, so the `JSON.parse` corruption branch
cannot occur. -/
def loadAvailableSources (st : Store) (now : Int) (isLocalhost forceRefresh : Bool)
    (fetchResult : Except Unit (List SourceEntry)) : SourcesResult :=
  let cacheTime : Int := if isLocalhost then 10 * 1000 else 30 * 1000
  if forceRefresh then loadAvailableSourcesForce st now fetchResult
  else
    match st.sourcesCacheDate, st.sourcesCache with
    | some cachedDate, some sources =>
      if now - cachedDate < cacheTime then
        let enabled := enabledFilter sources
        let avail := enabled.map (fun s => s.value)
        match st.selectedSource with
        | some stored =>
          if !(avail.contains stored) then loadAvailableSourcesForce st now fetchResult
          else ⟨enabled, avail, st⟩
        | none => ⟨enabled, avail, st⟩
      else loadAvailableSourcesForce st now fetchResult
    | _, _ => loadAvailableSourcesForce st now fetchResult

/-- Outcome a `fetch` call would produce: a transport failure carrying the
error message, or a response with an HTTP status and a parsed JSON body. -/
inductive FetchOutcome where
  | netfail (msg : String)
  | resp (status : Nat) (data : RawData)
deriving DecidableEq

/-- Embedding of `Response.ok` of the Fetch standard: status in the range 200-299. -/
def respOk (status : Nat) : Bool :=
  200 ≤ status && status < 300

/-- Whether an `Except` result is a success. -/
def exOk {ε α : Type} : Except ε α → Bool
  | Except.ok _ => true
  | Except.error _ => false

/-- The backend-response handling shared by both `fetchPicture` variants
(extension lines 535-551): a non-ok HTTP status, a truthy `error` field,
or a falsy `title` field each throw; otherwise the payload is normalized.
`normalize` is the variant's `normalizePictureData`. -/
def backendAttempt (normalize : RawData → Option String → PictureRecord)
    (source : Option String) (outcome : FetchOutcome) : Except String PictureRecord :=
  match outcome with
  | FetchOutcome.netfail msg => Except.error msg
  | FetchOutcome.resp status data =>
    if !respOk status then Except.error ("HTTP error! status: " ++ toString status)
    else if truthyS data.error then Except.error ((data.error).getD "")
    else if truthyS data.title then Except.ok (normalize data source)
    else Except.error "Invalid data from backend"

/-- The message `fetchPicture` throws when no source remains enabled. -/
def errNoSources : String :=
  "No picture sources are currently enabled. Please enable sources in the admin panel."

/-- Source resolution at the head of the extension's `fetchPicture` (lines
499-518): take the argument if truthy, else the stored selection; when the
resolved source is not among the available ones, switch to — and persist —
the first available source, or fail when none is available; when nothing
resolved at all, default to the first available source without persisting.
Returns the resolution outcome together with the store as mutated so far
(used when the resolution throws). -/
def resolveSourceExt (avail : List String) (st : Store) (source : Option String) :
    Except String (String × Store) × Store :=
  let (sel, st0) :=
    if truthyS source then (source, st) else getSelectedSourceExt avail st
  (match sel with
   | some s =>
     if !(avail.contains s) then
       match avail with
       | first :: _ => Except.ok (first, setSelectedSource first st0)
       | [] => Except.error errNoSources
     else Except.ok (s, st0)
   | none =>
     match avail with
     | [] => Except.error errNoSources
     | first :: _ => Except.ok (first, st0), st0)

/-- Embedding of `fetchPicture(source)` of the extension variant (lines 498-552):
resolve the effective source, then issue the backend request and vet the
response.  The request URL only selects the endpoint; the response is the
`outcome` argument.  Returns the result together with the updated
store. -/
def fetchPictureExt (avail : List String) (st : Store) (source : Option String)
    (outcome : FetchOutcome) : Except String PictureRecord × Store :=
  match resolveSourceExt avail st source with
  | (Except.ok (src, st1), _) =>
    (backendAttempt (fun d s => normalizePictureDataExt d s) (some src) outcome, st1)
  | (Except.error e, st0) => (Except.error e, st0)

/-- JavaScript dash-stripping `date.replace` with a global dash regex:
remove every dash. -/
def stripDashes (date : String) : String :=
  String.mk ((date.data).filter (fun c => c ≠ '-'))

/-- The URL of the APOD page the website fallback reconstructs from the
picture date (dash-stripping `replace` followed by `substring(2)`): strip
the dashes and drop the century digits. -/
def apodPageUrl (date : String) : String :=
  "https://apod.nasa.gov/apod/ap" ++ String.mk (((stripDashes date).data).drop 2) ++ ".html"

/-- The reshaped payload the website fallback hands to
`normalizePictureData` after a successful direct NASA call (website lines
641-652): only the NASA fields are read. -/
def nasaToRaw (data : RawData) : RawData where
  title := data.title
  date := data.date
  display_explanation := data.explanation
  original_explanation := data.explanation
  media_type := data.media_type
  image_url := data.url
  hd_image_url := data.hdurl
  display_image_url := jsOr data.hdurl data.url
  copyright := data.copyright
  source_url := some (apodPageUrl ((data.date).getD ""))

/-- Embedding of `fetchPicture(source)` of the website variant (lines 593-661): try the
backend; on any failure, and only for the `apod` source, issue a second
request directly to the NASA APOD API and normalize its payload; every
other source rethrows the original failure.  A missing `date` in the NASA
payload makes `data.date.replace` throw a `TypeError` before
normalization, modelled by the corresponding error. -/
def fetchPictureWeb (st : Store) (source : Option String)
    (backend nasa : FetchOutcome) : Except String PictureRecord :=
  let sel := jsOr source st.selectedSource
  match backendAttempt (fun d s => normalizePictureData d s) sel backend with
  | Except.ok record => Except.ok record
  | Except.error e =>
    if sel = some "apod" then
      match nasa with
      | FetchOutcome.netfail msg => Except.error msg
      | FetchOutcome.resp status data =>
        if !respOk status then Except.error ("HTTP error! status: " ++ toString status)
        else if data.date = none then Except.error "TypeError"
        else Except.ok (normalizePictureData (nasaToRaw data) (some "apod"))
    else Except.error e

/-- Whether a backend response is one of the three shapes `fetchPicture`
rejects: non-ok HTTP status, truthy `error` field, or falsy `title`. -/
def badBackendResponse : FetchOutcome → Bool
  | FetchOutcome.netfail _ => false
  | FetchOutcome.resp status data =>
    !respOk status || truthyS data.error || !truthyS data.title

/-- The random-mode branch of the extension's `init()` (lines 803-865),
entered with the already-resolved available-source list: draw a random
source, serve the daily cache when it is valid for that source, otherwise
fetch and store the result with `cachePicture`. -/
def initRandomStep (avail : List String) (st : Store) (k : Nat) (today : String)
    (outcome : FetchOutcome) : Except String PictureRecord × Store :=
  match getRandomSourceExt avail k with
  | none => (Except.error "No picture sources are currently enabled.", st)
  | some source =>
    match getCachedPicture st today source with
    | some data => (Except.ok data, st)
    | none =>
      match fetchPictureExt avail st (some source) outcome with
      | (Except.ok record, st1) => (Except.ok record, cachePicture record today st1)
      | (Except.error e, st1) => (Except.error e, st1)

/-- The `objectFit` strategy of the fitting engine. -/
inductive Fit where
  | cover
  | contain
deriving DecidableEq

/-- The diagnostic mode label of the fitting engine.  The two labels of
the website variant's final branch interpolate `cropPercent.toFixed(0)`
into the string; they are modelled by carrying the exact crop percentage.
`cover` is the extension variant's constant label. -/
inductive Mode where
  | cover
  | defaultNoDims
  | squareCrop
  | coverSquareViewport
  | containPortraitInLandscape
  | containLandscapeInPortrait
  | containUpscale
  | coverPerfectMatch
  | containCropAvoided (cropPercent : ℚ)
  | coverCropped (cropPercent : ℚ)
deriving DecidableEq

/-- The record `calculateOptimalDisplay` returns. -/
structure DisplaySettings where
  objectFit : Fit
  objectPosition : String
  scale : ℚ
  mode : Mode
  displayWidth : ℚ
  displayHeight : ℚ
deriving DecidableEq

/-- ECMAScript `Math.round`: nearest integer, ties toward positive
infinity. -/
def jsRound (q : ℚ) : ℤ :=
  Int.floor (q + 1 / 2)

/-- ECMAScript `Number.prototype.toFixed(2)` on the exact value: the
nearest multiple of 1/100, the larger one on ties. -/
def toFixed2 (q : ℚ) : ℚ :=
  (Int.floor (q * 100 + 1 / 2) : ℚ) / 100

/-- Embedding of `calculateOptimalDisplay(viewportWidth, viewportHeight, imageWidth,
imageHeight)` of the website variant
(`src/pictures/static/pictures/newtab.js` lines 386-489).  A falsy image
dimension (absent or zero) selects the default cover branch; otherwise the
decision cascade runs on the aspect ratios exactly as in the source.  The
returned `scale` is the source's `scale.toFixed(2)` and the displayed
dimensions are its `Math.round(...)` results. -/
def calculateOptimalDisplay (viewportWidth viewportHeight : ℚ)
    (imageWidth imageHeight : Option ℚ) : DisplaySettings :=
  match imageWidth, imageHeight with
  | some iw, some ih =>
    if iw = 0 ∨ ih = 0 then
      ⟨Fit.cover, "center", 1, Mode.defaultNoDims, viewportWidth, viewportHeight⟩
    else
      let viewportAspect := viewportWidth / viewportHeight
      let imageAspect := iw / ih
      let aspectRatioDiff := |imageAspect - viewportAspect|
      let viewportIsWide := viewportAspect > 1
      let imageIsWide := imageAspect > 1
      let squareSize := min viewportWidth viewportHeight
      let scaleToFitWidth := viewportWidth / iw
      let scaleToFitHeight := viewportHeight / ih
      let scaleToFill := max scaleToFitWidth scaleToFitHeight
      let scaleToContain := min scaleToFitWidth scaleToFitHeight
      if 0.9 ≤ viewportAspect ∧ viewportAspect ≤ 1.1 then
        if imageAspect > 1.5 ∨ imageAspect < 0.67 then
          ⟨Fit.cover, "center", toFixed2 scaleToFill, Mode.squareCrop,
            (jsRound squareSize : ℚ), (jsRound squareSize : ℚ)⟩
        else
          ⟨Fit.cover, "center", toFixed2 scaleToFill, Mode.coverSquareViewport,
            (jsRound viewportWidth : ℚ), (jsRound viewportHeight : ℚ)⟩
      else if (viewportIsWide ∧ ¬imageIsWide) ∨ (¬viewportIsWide ∧ imageIsWide) then
        if viewportIsWide ∧ ¬imageIsWide then
          ⟨Fit.contain, "center", toFixed2 scaleToContain, Mode.containPortraitInLandscape,
            (jsRound (iw * scaleToContain) : ℚ), (jsRound (ih * scaleToContain) : ℚ)⟩
        else
          ⟨Fit.contain, "center", toFixed2 scaleToContain, Mode.containLandscapeInPortrait,
            (jsRound (iw * scaleToContain) : ℚ), (jsRound (ih * scaleToContain) : ℚ)⟩
      else if scaleToContain > 1.5 then
        ⟨Fit.contain, "center", toFixed2 scaleToContain, Mode.containUpscale,
          (jsRound (iw * scaleToContain) : ℚ), (jsRound (ih * scaleToContain) : ℚ)⟩
      else if aspectRatioDiff < 0.1 then
        ⟨Fit.cover, "center", toFixed2 scaleToFill, Mode.coverPerfectMatch,
          (jsRound viewportWidth : ℚ), (jsRound viewportHeight : ℚ)⟩
      else
        let cropPercent :=
          if imageAspect > viewportAspect then
            ((viewportHeight - viewportWidth / imageAspect) / viewportHeight) * 100
          else
            ((viewportWidth - viewportHeight * imageAspect) / viewportWidth) * 100
        if cropPercent > 25 then
          ⟨Fit.contain, "center", toFixed2 scaleToContain, Mode.containCropAvoided cropPercent,
            (jsRound viewportWidth : ℚ), (jsRound viewportHeight : ℚ)⟩
        else
          ⟨Fit.cover, "center", toFixed2 scaleToFill, Mode.coverCropped cropPercent,
            (jsRound viewportWidth : ℚ), (jsRound viewportHeight : ℚ)⟩
  | _, _ =>
    ⟨Fit.cover, "center", 1, Mode.defaultNoDims, viewportWidth, viewportHeight⟩

/-- Embedding of `calculateOptimalDisplay` of the extension variant
(`src/extension/newtab.js` lines 369-394): a simplified strategy with no
decision cascade — always `cover` at the viewport size with the constant
`Cover` label; when both image dimensions are known (truthy) the reported
scale is `max(viewportW/imageW, viewportH/imageH).toFixed(2)`, else 1. -/
def calculateOptimalDisplayExt (viewportWidth viewportHeight : ℚ)
    (imageWidth imageHeight : Option ℚ) : DisplaySettings :=
  match imageWidth, imageHeight with
  | some iw, some ih =>
    if iw = 0 ∨ ih = 0 then
      ⟨Fit.cover, "center", 1, Mode.cover, viewportWidth, viewportHeight⟩
    else
      let scaleToFitWidth := viewportWidth / iw
      let scaleToFitHeight := viewportHeight / ih
      let scale := max scaleToFitWidth scaleToFitHeight
      ⟨Fit.cover, "center", toFixed2 scale, Mode.cover, viewportWidth, viewportHeight⟩
  | _, _ =>
    ⟨Fit.cover, "center", 1, Mode.cover, viewportWidth, viewportHeight⟩

/-- Embedding of `normalizePictureData` of the `src/unnamed/part_006`
variant (lines 812-834): the same `||`-fallback chains as the website
variant but with no sanitization anywhere — every text field is stored
verbatim. -/
def normalizePictureDataP6 (data : RawData) (source : Option String) : PictureRecord where
  source := source
  title := data.title
  date := data.date
  processed_explanation := data.processed_explanation
  display_explanation :=
    jsOr data.display_explanation
      (jsOr data.processed_explanation (jsOr data.original_explanation data.explanation))
  original_explanation := jsOr data.original_explanation data.explanation
  simplified_explanation := data.simplified_explanation
  is_processed := jsOrB data.is_processed
  media_type := jsOrD data.media_type "image"
  image_url := jsOr data.image_url data.url
  hd_image_url := jsOr data.hd_image_url data.hdurl
  display_image_url :=
    jsOr data.display_image_url
      (jsOr data.hd_image_url (jsOr data.hdurl (jsOr data.image_url data.url)))
  thumbnail_url := data.thumbnail_url
  copyright := data.copyright
  source_url := jsOr data.source_url data.nasa_url
  image_width := data.image_width
  image_height := data.image_height
  image_size_mb := data.image_size_mb
  image_resolution := data.image_resolution

/-- Embedding of `fetchPicture(source)` of the `src/unnamed/part_006`
variant (lines 705-808): the same source resolution as the extension
variant (its `getSelectedSource`, lines 408-425, is identical, so
`resolveSourceExt` embeds lines 706-728), then the same
backend-try/NASA-fallback protocol as the website variant, but
normalizing through the variant's own unsanitized
`normalizePictureData`. -/
def fetchPictureP6 (avail : List String) (st : Store) (source : Option String)
    (backend nasa : FetchOutcome) : Except String PictureRecord × Store :=
  match resolveSourceExt avail st source with
  | (Except.error e, st0) => (Except.error e, st0)
  | (Except.ok (src, st1), _) =>
    (match backendAttempt (fun d s => normalizePictureDataP6 d s) (some src) backend with
     | Except.ok record => Except.ok record
     | Except.error e =>
       if src = "apod" then
         match nasa with
         | FetchOutcome.netfail msg => Except.error msg
         | FetchOutcome.resp status data =>
           if !respOk status then Except.error ("HTTP error! status: " ++ toString status)
           else if data.date = none then Except.error "TypeError"
           else Except.ok (normalizePictureDataP6 (nasaToRaw data) (some "apod"))
       else Except.error e, st1)

/-- C1: for every source `X`, `isCacheValid(X)` returns true if and only
if the stored cache date string equals today's calendar date and the
stored cache source equals `X`; in particular it returns false when the
cache date is yesterday (any string other than today) even if the source
matches, and false when the source differs even on the same day. -/
theorem isCacheValid_iff_today_and_source (st : Store) (today source : String) :
    (isCacheValid st today source = true ↔
      st.cacheDate = some today ∧ st.selectedSource = some source) ∧
    (st.cacheDate ≠ some today → isCacheValid st today source = false) ∧
    (st.selectedSource ≠ some source → isCacheValid st today source = false) := by
  refine ⟨by simp [isCacheValid], ?_, ?_⟩
  · intro h
    simp [isCacheValid, h]
  · intro h
    simp [isCacheValid, h]

/-- Witness for C1: a cache stamped yesterday with matching source is
invalid today, and a cache stamped today for `apod` is invalid for
`bing`. -/
theorem isCacheValid_iff_today_and_source_witness :
    isCacheValid ⟨none, some "Wed Jan 01 2025", some "apod", none, none, none⟩
        "Thu Jan 02 2025" "apod" = false ∧
    isCacheValid ⟨none, some "Wed Jan 01 2025", some "apod", none, none, none⟩
        "Wed Jan 01 2025" "bing" = false := by
  constructor
  · exact (isCacheValid_iff_today_and_source _ _ _).2.1 (by decide)
  · exact (isCacheValid_iff_today_and_source _ _ _).2.2 (by decide)

/-- C8: the display-fitting function is deterministic and pure.  The
embedding is a plain function of exactly the viewport and image dimensions
— translating the source required no ambient state — so two calls with
identical inputs are the same term and every output component (strategy,
position, scale, mode label, displayed dimensions) coincides. -/
theorem calculateOptimalDisplay_deterministic (vw vh : ℚ) (iw ih : Option ℚ) :
    calculateOptimalDisplay vw vh iw ih = calculateOptimalDisplay vw vh iw ih ∧
    (calculateOptimalDisplay vw vh iw ih).objectFit
        = (calculateOptimalDisplay vw vh iw ih).objectFit ∧
    (calculateOptimalDisplay vw vh iw ih).objectPosition
        = (calculateOptimalDisplay vw vh iw ih).objectPosition ∧
    (calculateOptimalDisplay vw vh iw ih).scale
        = (calculateOptimalDisplay vw vh iw ih).scale ∧
    (calculateOptimalDisplay vw vh iw ih).mode
        = (calculateOptimalDisplay vw vh iw ih).mode ∧
    (calculateOptimalDisplay vw vh iw ih).displayWidth
        = (calculateOptimalDisplay vw vh iw ih).displayWidth ∧
    (calculateOptimalDisplay vw vh iw ih).displayHeight
        = (calculateOptimalDisplay vw vh iw ih).displayHeight :=
  ⟨rfl, rfl, rfl, rfl, rfl, rfl, rfl⟩

/-- C9: the cache's recorded source and the selected-source setting are
the same storage cell (`picture_source`): `cachePicture` writes it (when
the record's source is set) and `isCacheValid` reads it.  Consequently,
after caching a record for source `A` on day `D`, writing selected source
`B` the same day makes `isCacheValid(B)` true and `isCacheValid(A)` false
while the stored record is still `A`'s. -/
theorem cachePicture_and_selection_share_cell (st : Store) (rec : PictureRecord)
    (A B today : String) (hsrc : rec.source = some A) (hA : A ≠ "") (hAB : A ≠ B) :
    (cachePicture rec today st).selectedSource = some A ∧
    (setSelectedSource B (cachePicture rec today st)).selectedSource = some B ∧
    isCacheValid (setSelectedSource B (cachePicture rec today st)) today B = true ∧
    isCacheValid (setSelectedSource B (cachePicture rec today st)) today A = false ∧
    (setSelectedSource B (cachePicture rec today st)).cache = some rec := by
  have htr : truthyS (some A) = true := by simp [truthyS, hA]
  have hst1 : cachePicture rec today st =
      { st with cache := some rec, cacheDate := some today, selectedSource := some A } := by
    simp [cachePicture, setSelectedSource, hsrc, htr]
  rw [hst1]
  refine ⟨rfl, rfl, by simp [isCacheValid, setSelectedSource], ?_, rfl⟩
  simp [isCacheValid, setSelectedSource]
  intro h
  exact absurd h.symm hAB

/-- Witness for C9: caching a record for `apod` today and then selecting
`bing` validates the cache for `bing` only, with `apod`'s record still
stored. -/
theorem cachePicture_and_selection_share_cell_witness :
    isCacheValid
      (setSelectedSource "bing"
        (cachePicture { (default : PictureRecord) with source := some "apod" }
          "Fri Jan 03 2025" emptyStore))
      "Fri Jan 03 2025" "bing" = true :=
  (cachePicture_and_selection_share_cell emptyStore
    { (default : PictureRecord) with source := some "apod" }
    "apod" "bing" "Fri Jan 03 2025" rfl (by decide) (by decide)).2.2.1

/-- C10: with an empty enabled-source working set, the website variant's
`getRandomSource` returns the fixed `DEFAULT_SOURCE` value `apod` — a
source that is not in the (empty) enabled set — while the extension
variant returns `null` in the same situation. -/
theorem getRandomSource_empty_behaviour (k : Nat) :
    getRandomSourceWeb [] k = DEFAULT_SOURCE ∧
    DEFAULT_SOURCE = "apod" ∧
    getRandomSourceExt [] k = none ∧
    (([] : List String).contains (getRandomSourceWeb [] k)) = false :=
  ⟨rfl, rfl, rfl, rfl⟩

/-- C5: when the catalog is fetched (forced refresh, successful fetch),
`loadAvailableSources` returns exactly the entries whose `enabled` flag is
not `false`, in catalog order (the result is a sublist of the catalog);
in particular no disabled entry is ever returned. -/
theorem loadAvailableSources_returns_enabled_subset
    (st : Store) (now : Int) (isLocalhost : Bool) (catalog : List SourceEntry) :
    (loadAvailableSources st now isLocalhost true (Except.ok catalog)).returned
        = enabledFilter catalog ∧
    (∀ s, s ∈ (loadAvailableSources st now isLocalhost true (Except.ok catalog)).returned
        ↔ s ∈ catalog ∧ s.enabled ≠ some false) ∧
    List.Sublist
      (loadAvailableSources st now isLocalhost true (Except.ok catalog)).returned
      catalog := by
  have h : (loadAvailableSources st now isLocalhost true (Except.ok catalog)).returned
      = enabledFilter catalog := by
    simp [loadAvailableSources, loadAvailableSourcesForce]
  refine ⟨h, ?_, ?_⟩
  · intro s
    rw [h]
    simp [enabledFilter, List.mem_filter]
  · rw [h]
    exact List.filter_sublist catalog

/-- Witness for C5: the catalog `[{A, enabled: true}, {B, enabled: false}]`
resolves to exactly `[{A, enabled: true}]`. -/
theorem loadAvailableSources_returns_enabled_subset_witness :
    (loadAvailableSources emptyStore 0 false true
        (Except.ok [⟨"A", none, some true⟩, ⟨"B", none, some false⟩])).returned
      = [⟨"A", none, some true⟩] := by
  have h := (loadAvailableSources_returns_enabled_subset emptyStore 0 false
    [⟨"A", none, some true⟩, ⟨"B", none, some false⟩]).1
  rw [h]
  rfl

/-- C6: when the remote catalog fetch fails, `loadAvailableSources`
returns the enabled subset of the last cached catalog regardless of the
cache's age, and when no cached catalog exists it returns the empty list
and sets the working set of available sources to empty — in every case it
returns a value rather than raising. -/
theorem loadAvailableSources_failure_falls_back
    (st : Store) (now : Int) (isLocalhost forceRefresh : Bool) :
    (loadAvailableSources st now isLocalhost forceRefresh (Except.error ())).returned
        = enabledFilter ((st.sourcesCache).getD []) ∧
    (loadAvailableSources st now isLocalhost forceRefresh (Except.error ())).avail
        = (enabledFilter ((st.sourcesCache).getD [])).map (fun s => s.value) := by
  unfold loadAvailableSources loadAvailableSourcesForce
  cases hsc : st.sourcesCache with
  | none =>
    cases hsd : st.sourcesCacheDate <;> cases forceRefresh <;> simp [enabledFilter]
  | some sources =>
    cases hsd : st.sourcesCacheDate with
    | none => cases forceRefresh <;> simp
    | some cachedDate =>
      cases forceRefresh with
      | true => simp
      | false =>
        cases hsel : st.selectedSource <;> split_ifs <;> simp

/-- A backend response of any of the three rejected shapes makes the
backend attempt fail, for either normalization variant. -/
theorem backendAttempt_bad (normalize : RawData → Option String → PictureRecord)
    (source : Option String) (outcome : FetchOutcome)
    (h : badBackendResponse outcome = true) :
    exOk (backendAttempt normalize source outcome) = false := by
  cases outcome with
  | netfail m => simp [badBackendResponse] at h
  | resp status data =>
    simp only [badBackendResponse, Bool.or_eq_true] at h
    unfold backendAttempt
    dsimp only
    split_ifs with h1 h2 h3
    · rfl
    · rfl
    · exfalso
      simp only [h3, Bool.not_true] at h
      rcases h with (h | h) | h
      · exact h1 h
      · exact h2 h
      · exact absurd h (by decide)
    · rfl

/-- C7: `fetchPicture` (extension variant) treats a non-success HTTP
status, a success response carrying a truthy `error` field, and a success
response with a missing (falsy) `title` field each as failure: it raises
an error and never returns a record from such a response. -/
theorem fetchPicture_rejects_bad_response
    (avail : List String) (st : Store) (source : Option String) (outcome : FetchOutcome)
    (h : badBackendResponse outcome = true) :
    exOk (fetchPictureExt avail st source outcome).1 = false := by
  unfold fetchPictureExt
  rcases hres : resolveSourceExt avail st source with ⟨res, st0⟩
  cases res with
  | error e => rfl
  | ok p =>
    rcases p with ⟨src, st1⟩
    exact backendAttempt_bad _ (some src) outcome h

/-- Witness for C7: a 500 status, a 200 response with `error` set, and a
200 response with no `title` each make `fetchPicture` fail. -/
theorem fetchPicture_rejects_bad_response_witness :
    badBackendResponse (FetchOutcome.resp 500 ({ title := some "T" } : RawData)) = true ∧
    exOk (fetchPictureExt ["apod"] emptyStore (some "apod")
        (FetchOutcome.resp 500 ({ title := some "T" } : RawData))).1 = false ∧
    exOk (fetchPictureExt ["apod"] emptyStore (some "apod")
        (FetchOutcome.resp 200 ({ title := some "T", error := some "boom" } : RawData))).1
      = false ∧
    exOk (fetchPictureExt ["apod"] emptyStore (some "apod")
        (FetchOutcome.resp 200 ({} : RawData))).1 = false :=
  ⟨by decide,
   fetchPicture_rejects_bad_response _ _ _ _ (by decide),
   fetchPicture_rejects_bad_response _ _ _ _ (by decide),
   fetchPicture_rejects_bad_response _ _ _ _ (by decide)⟩

/-- C2 (amended): for positive viewport and image dimensions with a
non-near-square viewport, when exactly one of viewport and image is
landscape (aspect ratio `> 1`) and the other is not: the website
variant's fitting function returns strategy `contain`, reported scale
equal to `min(viewportW/imageW, viewportH/imageH)` rounded to two
decimals (`toFixed(2)`), and displayed width/height equal to the image
dimensions multiplied by the exact scale and rounded to the nearest
integer (`Math.round`); the extension variant's fitting function has no
opposite-orientation case at all — it returns strategy `cover` at the
viewport size with reported scale
`max(viewportW/imageW, viewportH/imageH).toFixed(2)`. -/
theorem calculateOptimalDisplay_opposite_orientation
    (vw vh iw ih : ℚ) (hvw : 0 < vw) (hvh : 0 < vh) (hiw : 0 < iw) (hih : 0 < ih)
    (hsq : ¬(0.9 ≤ vw / vh ∧ vw / vh ≤ 1.1))
    (hx : (vw / vh > 1 ∧ ¬iw / ih > 1) ∨ (¬vw / vh > 1 ∧ iw / ih > 1)) :
    calculateOptimalDisplay vw vh (some iw) (some ih) =
      ⟨Fit.contain, "center", toFixed2 (min (vw / iw) (vh / ih)),
        (if vw / vh > 1 then Mode.containPortraitInLandscape
          else Mode.containLandscapeInPortrait),
        (jsRound (iw * min (vw / iw) (vh / ih)) : ℚ),
        (jsRound (ih * min (vw / iw) (vh / ih)) : ℚ)⟩ ∧
    calculateOptimalDisplayExt vw vh (some iw) (some ih) =
      ⟨Fit.cover, "center", toFixed2 (max (vw / iw) (vh / ih)), Mode.cover, vw, vh⟩ := by
  have hz : ¬(iw = 0 ∨ ih = 0) := by
    push_neg
    exact ⟨ne_of_gt hiw, ne_of_gt hih⟩
  constructor
  · simp only [calculateOptimalDisplay]
    rw [if_neg hz, if_neg hsq, if_pos hx]
    rcases hx with ⟨h1, h2⟩ | ⟨h1, h2⟩
    · rw [if_pos ⟨h1, h2⟩, if_pos h1]
    · rw [if_neg (by intro hc; exact h1 hc.1), if_neg h1]
  · simp only [calculateOptimalDisplayExt]
    rw [if_neg hz]

/-- Witness for C2 (amended): viewport 1920×1080 with image 1080×1920
yields, in the website variant, `contain` with reported scale `0.56` (the
two-decimal rounding of `0.5625 = min(1920/1080, 1080/1920)`) and
displayed size `608 × 1080` (`Math.round` of `607.5` and `1080`); in the
extension variant, `cover` at the viewport size with reported scale
`1.78` (the two-decimal rounding of `max(1920/1080, 1080/1920)`). -/
theorem calculateOptimalDisplay_opposite_orientation_witness :
    calculateOptimalDisplay 1920 1080 (some 1080) (some 1920) =
      ⟨Fit.contain, "center", 14 / 25, Mode.containPortraitInLandscape, 608, 1080⟩ ∧
    calculateOptimalDisplayExt 1920 1080 (some 1080) (some 1920) =
      ⟨Fit.cover, "center", 89 / 50, Mode.cover, 1920, 1080⟩ := by
  have h := calculateOptimalDisplay_opposite_orientation 1920 1080 1080 1920
    (by norm_num) (by norm_num) (by norm_num) (by norm_num) (by norm_num) (by norm_num)
  constructor
  · rw [h.1]
    norm_num [toFixed2, jsRound, min_def]
  · rw [h.2]
    norm_num [toFixed2, max_def]

/-- Counterexample to C2 as stated: at viewport 1920×1080 and image
1080×1920 the website variant's strategy is `contain`, but its returned
scale is not `min(1920/1080, 1080/1920) = 0.5625` (it is the rounded
`0.56`) and its displayed width is not `1080 × 0.5625 = 607.5` (it is the
rounded `608`); and the extension variant's `calculateOptimalDisplay`
(also cited by the claim) does not return `contain` at all — it returns
`cover`. -/
theorem calculateOptimalDisplay_opposite_orientation_counterexample :
    (calculateOptimalDisplay 1920 1080 (some 1080) (some 1920)).objectFit = Fit.contain ∧
    (calculateOptimalDisplay 1920 1080 (some 1080) (some 1920)).scale
        ≠ min ((1920 : ℚ) / 1080) ((1080 : ℚ) / 1920) ∧
    (calculateOptimalDisplay 1920 1080 (some 1080) (some 1920)).displayWidth
        ≠ 1080 * min ((1920 : ℚ) / 1080) ((1080 : ℚ) / 1920) ∧
    (calculateOptimalDisplayExt 1920 1080 (some 1080) (some 1920)).objectFit = Fit.cover ∧
    (calculateOptimalDisplayExt 1920 1080 (some 1080) (some 1920)).objectFit
        ≠ Fit.contain := by
  have h : calculateOptimalDisplay 1920 1080 (some 1080) (some 1920) =
      ⟨Fit.contain, "center", 14 / 25, Mode.containPortraitInLandscape, 608, 1080⟩ := by
    simp only [calculateOptimalDisplay]
    norm_num [toFixed2, jsRound, min_def]
  have hext : calculateOptimalDisplayExt 1920 1080 (some 1080) (some 1920) =
      ⟨Fit.cover, "center", 89 / 50, Mode.cover, 1920, 1080⟩ := by
    simp only [calculateOptimalDisplayExt]
    norm_num [toFixed2, max_def]
  refine ⟨?_, ?_, ?_, ?_, ?_⟩
  · rw [h]
  · rw [h]
    norm_num [min_def]
  · rw [h]
    norm_num [min_def]
  · rw [hext]
  · rw [hext]
    decide

/-- A successful minimal backend payload used by concrete instances. -/
def rawOk : RawData := { title := some "T", date := some "2024-01-15" }

/-- C3 (amended): with random-on-new-tab enabled, `init` does not read the
persisted selection to choose the source, but when the daily cache misses
and the fetch succeeds it persists the randomly picked source: the
`cachePicture` call writes the picked source into the selected-source
settings entry (`picture_source`). -/
theorem init_random_persists_pick
    (avail : List String) (st : Store) (k : Nat) (today : String)
    (status : Nat) (data : RawData) (a : String)
    (ha : getRandomSourceExt avail k = some a)
    (hane : a ≠ "")
    (hmem : avail.contains a = true)
    (hcache : getCachedPicture st today a = none)
    (hok : respOk status = true)
    (herr : truthyS data.error = false)
    (htitle : truthyS data.title = true) :
    ((initRandomStep avail st k today (FetchOutcome.resp status data)).2).selectedSource
      = some a := by
  have htr : truthyS (some a) = true := by simp [truthyS, hane]
  have hmem' : a ∈ avail := by simpa using hmem
  have hres : resolveSourceExt avail st (some a) = (Except.ok (a, st), st) := by
    simp only [resolveSourceExt, htr, if_true]
    rw [if_neg]
    simp [hmem']
  have hatt : backendAttempt (fun d s => normalizePictureDataExt d s) (some a)
      (FetchOutcome.resp status data)
      = Except.ok (normalizePictureDataExt data (some a)) := by
    simp [backendAttempt, hok, herr, htitle]
  have hfetch : fetchPictureExt avail st (some a) (FetchOutcome.resp status data)
      = (Except.ok (normalizePictureDataExt data (some a)), st) := by
    rw [fetchPictureExt, hres]
    dsimp only
    rw [hatt]
  simp [initRandomStep, ha, hcache, hfetch, cachePicture, setSelectedSource,
    normalizePictureDataExt, htr]

/-- Witness for C3 (amended): with available sources `[apod, bing]`, a
random draw of `bing`, an empty store and a successful fetch, the run
ends with `picture_source = bing`. -/
theorem init_random_persists_pick_witness :
    ((initRandomStep ["apod", "bing"] emptyStore 1 "Tue Jan 16 2024"
        (FetchOutcome.resp 200 rawOk)).2).selectedSource = some "bing" :=
  init_random_persists_pick ["apod", "bing"] emptyStore 1 "Tue Jan 16 2024" 200 rawOk
    "bing" (by decide) (by decide) (by decide) (by decide) (by decide) (by decide)
    (by decide)

/-- Counterexample to C3 as stated: starting from a store whose
selected-source entry is unset, one random-mode initialization with a
cache miss and a successful fetch leaves the entry set to the randomly
picked source — it does not remain unset/unchanged. -/
theorem init_random_persists_pick_counterexample :
    emptyStore.selectedSource = none ∧
    ((initRandomStep ["apod"] emptyStore 0 "Mon Jan 15 2024"
        (FetchOutcome.resp 200 rawOk)).2).selectedSource = some "apod" := by
  refine ⟨rfl, ?_⟩
  decide

/-- JavaScript `a || b` returns `a` when `a` is truthy. -/
theorem jsOr_truthy_left (a b : Option String) (h : truthyS a = true) : jsOr a b = a := by
  simp [jsOr, h]

/-- C4 (amended): when the backend request for the `apod` source fails, a
second request goes directly to the NASA provider; on its success, in
both cited variants, the returned record has `source = "apod"` and
`display_image_url` equal to the provider's `hdurl` when that is truthy
and else its `url`; `original_explanation` equals the provider's
`explanation` verbatim in the `part_006` variant, and equals
`sanitizeHtmlEntities(explanation)` (identical whenever the explanation
contains no HTML entities and no non-breaking spaces) in the website
variant; for every source other than `apod` the original failure is
rethrown with no secondary attempt in both variants. -/
theorem fetchPicture_apod_fallback
    (avail : List String) (st : Store) (data : RawData) (e dt u m : String)
    (hav : avail.contains "apod" = true)
    (hexp : data.explanation = some e) (he : e ≠ "")
    (hdt : data.date = some dt)
    (hu : data.url = some u) (hune : u ≠ "") :
    fetchPictureWeb st (some "apod") (FetchOutcome.netfail m) (FetchOutcome.resp 200 data)
      = Except.ok (normalizePictureData (nasaToRaw data) (some "apod")) ∧
    (normalizePictureData (nasaToRaw data) (some "apod")).source = some "apod" ∧
    (normalizePictureData (nasaToRaw data) (some "apod")).display_image_url
        = jsOr data.hdurl data.url ∧
    (normalizePictureData (nasaToRaw data) (some "apod")).original_explanation
        = some (sanitizeHtmlEntities e) ∧
    fetchPictureP6 avail st (some "apod") (FetchOutcome.netfail m) (FetchOutcome.resp 200 data)
      = (Except.ok (normalizePictureDataP6 (nasaToRaw data) (some "apod")), st) ∧
    (normalizePictureDataP6 (nasaToRaw data) (some "apod")).source = some "apod" ∧
    (normalizePictureDataP6 (nasaToRaw data) (some "apod")).display_image_url
        = jsOr data.hdurl data.url ∧
    (normalizePictureDataP6 (nasaToRaw data) (some "apod")).original_explanation = some e ∧
    (∀ src nasa, src ≠ "apod" → src ≠ "" →
      fetchPictureWeb st (some src) (FetchOutcome.netfail m) nasa = Except.error m) ∧
    (∀ src nasa, src ≠ "apod" → src ≠ "" → avail.contains src = true →
      (fetchPictureP6 avail st (some src) (FetchOutcome.netfail m) nasa).1
        = Except.error m) := by
  have hdisp : truthyS (jsOr data.hdurl data.url) = true := by
    cases hh : truthyS data.hdurl with
    | true => simp [jsOr, hh]
    | false =>
      rw [jsOr, hh]
      simp [hu, truthyS, hune]
  have htrA : truthyS (some "apod") = true := rfl
  have hmemA : "apod" ∈ avail := by simpa using hav
  have hres : resolveSourceExt avail st (some "apod") = (Except.ok ("apod", st), st) := by
    simp only [resolveSourceExt, htrA, if_true]
    rw [if_neg]
    simp [hmemA]
  refine ⟨?_, rfl, ?_, ?_, ?_, rfl, ?_, ?_, ?_, ?_⟩
  · simp [fetchPictureWeb, jsOr, truthyS, backendAttempt, respOk, hdt]
  · exact jsOr_truthy_left (jsOr data.hdurl data.url)
      (jsOr data.hdurl (jsOr none (jsOr data.url none))) hdisp
  · simp [normalizePictureData, nasaToRaw, jsOr, sanitizeOpt, hexp, truthyS, he]
  · unfold fetchPictureP6
    rw [hres]
    dsimp only
    simp [backendAttempt, respOk, hdt]
  · exact jsOr_truthy_left (jsOr data.hdurl data.url)
      (jsOr data.hdurl (jsOr none (jsOr data.url none))) hdisp
  · simp [normalizePictureDataP6, nasaToRaw, jsOr, hexp, truthyS, he]
  · intro src nasa hsrc hne
    simp [fetchPictureWeb, jsOr, truthyS, hne, backendAttempt, hsrc]
  · intro src nasa hsrc hne hmemsrc
    have htr : truthyS (some src) = true := by simp [truthyS, hne]
    have hmem' : src ∈ avail := by simpa using hmemsrc
    have hres' : resolveSourceExt avail st (some src) = (Except.ok (src, st), st) := by
      simp only [resolveSourceExt, htr, if_true]
      rw [if_neg]
      simp [hmem']
    unfold fetchPictureP6
    rw [hres']
    dsimp only
    simp [backendAttempt, hsrc]

/-- The spec's fetch-fallback scenario payload. -/
def nasaRawW : RawData :=
  { title := some "T", date := some "2024-01-15", url := some "https://x/img.jpg",
    explanation := some "E" }

/-- Witness for C4 (amended): with the provider payload
`{title: T, date: 2024-01-15, url: https://x/img.jpg, explanation: E}`
both variants' fallback yields a record with `source = apod` and
`display_image_url = https://x/img.jpg` (no `hdurl` present), and both
store `original_explanation = E` (sanitization is the identity here). -/
theorem fetchPicture_apod_fallback_witness :
    fetchPictureWeb emptyStore (some "apod") (FetchOutcome.netfail "network error")
        (FetchOutcome.resp 200 nasaRawW)
      = Except.ok (normalizePictureData (nasaToRaw nasaRawW) (some "apod")) ∧
    (normalizePictureData (nasaToRaw nasaRawW) (some "apod")).source = some "apod" ∧
    (normalizePictureData (nasaToRaw nasaRawW) (some "apod")).display_image_url
      = some "https://x/img.jpg" ∧
    (normalizePictureData (nasaToRaw nasaRawW) (some "apod")).original_explanation
      = some "E" ∧
    fetchPictureP6 ["apod"] emptyStore (some "apod") (FetchOutcome.netfail "network error")
        (FetchOutcome.resp 200 nasaRawW)
      = (Except.ok (normalizePictureDataP6 (nasaToRaw nasaRawW) (some "apod")), emptyStore) ∧
    (normalizePictureDataP6 (nasaToRaw nasaRawW) (some "apod")).original_explanation
      = some "E" := by
  have h := fetchPicture_apod_fallback ["apod"] emptyStore nasaRawW "E" "2024-01-15"
    "https://x/img.jpg" "network error" (by decide) rfl (by decide) rfl rfl (by decide)
  refine ⟨h.1, h.2.1, ?_, ?_, h.2.2.2.2.1, ?_⟩
  · rw [h.2.2.1]
    decide
  · rw [h.2.2.2.1]
    decide
  · rw [h.2.2.2.2.2.2.2.1]

/-- The non-breaking-space string that separates the stored explanation
from the provider's explanation. -/
def nbspString : String := String.mk ['A', nbspChar, 'B']

/-- A provider payload whose explanation contains a non-breaking space. -/
def nasaRawNbsp : RawData :=
  { title := some "T", date := some "2024-01-15", url := some "u",
    explanation := some nbspString }

/-- Counterexample to C4 as stated: when the provider's explanation
contains a non-breaking space (U+00A0), the website variant stores the
sanitized string with a plain space as `original_explanation` — not the
provider's `explanation` field verbatim as the claim demands — while the
`part_006` variant stores it verbatim at the same input, so the two cited
implementations do not both satisfy the claimed equality. -/
theorem fetchPicture_apod_fallback_counterexample :
    ((fetchPictureWeb emptyStore (some "apod") (FetchOutcome.netfail "err")
        (FetchOutcome.resp 200 nasaRawNbsp)).toOption.map
          (fun r => r.original_explanation))
      = some (some (String.mk ['A', ' ', 'B'])) ∧
    ((fetchPictureP6 ["apod"] emptyStore (some "apod") (FetchOutcome.netfail "err")
        (FetchOutcome.resp 200 nasaRawNbsp)).1.toOption.map
          (fun r => r.original_explanation))
      = some (some (String.mk ['A', nbspChar, 'B'])) ∧
    nasaRawNbsp.explanation = some (String.mk ['A', nbspChar, 'B']) ∧
    String.mk ['A', ' ', 'B'] ≠ String.mk ['A', nbspChar, 'B'] := by
  refine ⟨by decide, by decide, rfl, by decide⟩
